import Mathlib

/-!
Verification of the session process manager and streaming protocol dispatcher
(`src-tauri/src/claude/process.rs` and `src-tauri/src/claude/stream_parser.rs`).

The Rust code is shallowly embedded: the mutex-guarded registries become an
explicit `ManagerState` threaded through the operations, child-process and
file-system interactions become oracle parameters (`SpawnEnv`, I/O outcome
`Option String` values where `some e` is the I/O error text), and every
observable side effect (event emission, kill, spawn, stdin write/shutdown)
is recorded in an effect list `List Eff` in program order.  JSON values from
`serde_json` are modelled by the inductive `Json`; JSON text parsing
(`serde_json::from_str`, an external library) is an oracle parameter
`parse : String → Option Json`.
-/

/-- Embedding of Rust `str::trim` on the leading side: drop leading
whitespace characters from a character list. -/
def dropLeadingWs : List Char → List Char
  | [] => []
  | c :: cs => if c.isWhitespace then dropLeadingWs cs else c :: cs

/-- Embedding of Rust `str::trim`: remove leading and trailing whitespace. -/
def strTrim (s : String) : String :=
  String.mk ((dropLeadingWs ((dropLeadingWs s.data).reverse)).reverse)

/-- Association-list lookup, modelling `HashMap::get` on a registry keyed by
session id (first binding wins; `alist.insert` keeps keys unique). -/
def alist.lookup {α : Type} : List (String × α) → String → Option α
  | [], _ => none
  | (k, v) :: rest, key => if k = key then some v else alist.lookup rest key

/-- Remove all bindings of a key, modelling `HashMap::remove`. -/
def alist.erase {α : Type} : List (String × α) → String → List (String × α)
  | [], _ => []
  | (k, v) :: rest, key =>
      if k = key then alist.erase rest key else (k, v) :: alist.erase rest key

/-- Insert or replace a binding, modelling `HashMap::insert`. -/
def alist.insert {α : Type} (l : List (String × α)) (key : String) (v : α) :
    List (String × α) :=
  (key, v) :: alist.erase l key

/-- Embedding of `serde_json::Value` (numbers restricted to integers, which
covers every field the dispatcher reads with `as_u64`). -/
inductive Json where
  | null : Json
  | bool : Bool → Json
  | num : Int → Json
  | str : String → Json
  | arr : List Json → Json
  | obj : List (String × Json) → Json

/-- `Value::get(key)` for object values. -/
def Json.get : Json → String → Option Json
  | Json.obj fields, key => alist.lookup fields key
  | _, _ => none

/-- `Value::as_str`. -/
def Json.asStr : Json → Option String
  | Json.str s => some s
  | _ => none

/-- `Value::as_u64`: defined on non-negative integers. -/
def Json.asU64 : Json → Option Nat
  | Json.num n => if 0 ≤ n then some n.toNat else none
  | _ => none

/-- `Value::as_bool`. -/
def Json.asBool : Json → Option Bool
  | Json.bool b => some b
  | _ => none

/-- Event name constants from `src-tauri/src/events.rs`. -/
def CLAUDE_STREAM_EVENT : String := "claude:stream_event"

def CLAUDE_MESSAGE_COMPLETE : String := "claude:message_complete"

def CLAUDE_TOOL_START : String := "claude:tool_start"

def CLAUDE_SESSION_STATUS : String := "claude:session_status"

def CLAUDE_USAGE_UPDATE : String := "claude:usage_update"

def CLAUDE_STDERR : String := "claude:stderr"

def CLAUDE_COMPACTION : String := "claude:compaction"

/-- Modelled from the spec: the conversation-id-resolved event name.  The
stdout reader in `process.rs` references `crate::events::CLAUDE_SESSION_ID_RESOLVED`,
but the provided `events.rs` omits this one constant; following the module's
uniform `claude:` naming scheme it is a distinct event name. -/
def CLAUDE_SESSION_ID_RESOLVED : String := "claude:session_id_resolved"

/-- `SpawnOptions` from `process.rs`. -/
structure SpawnOptions where
  session_id : String
  project_path : String
  claude_cli_path : Option String
  resume_session_id : Option String
  model : Option String
deriving DecidableEq

/-- Observable side effects of the manager and its reader tasks, in program
order: Tauri event emission (`app.emit`), killing a child (`child.kill()`),
a successful `cmd.spawn()`, a successful `stdin.write_all`, and a successful
`stdin.shutdown()`. -/
inductive Eff where
  | emit : String → Json → Eff
  | kill : String → Eff
  | spawned : SpawnOptions → Eff
  | wroteStdin : String → String → Eff
  | shutdownStdin : String → Eff

/-- `ProcessStatus` from `process.rs`. -/
inductive ProcessStatus where
  | Starting
  | Running
  | WaitingInput
  | Paused
  | Completed
  | Error
deriving DecidableEq

/-- `ClaudeProcess` from `process.rs`: the child handle itself carries no
further observable state, the stdin write end is modelled by its presence. -/
structure ClaudeProcess where
  stdin : Option Unit
  project_path : String
  status : ProcessStatus
deriving DecidableEq

/-- The two mutex-guarded registries owned by `ProcessManager`:
`processes` (Session Registry) and `claude_session_map` (Conversation ID Map). -/
structure ManagerState where
  processes : List (String × ClaudeProcess)
  claude_session_map : List (String × String)
deriving DecidableEq

/-- Payload of a `claude:session_status` emission. -/
def statusPayload (sid status : String) : Json :=
  Json.obj [("sessionId", Json.str sid), ("status", Json.str status)]

/-- Payload of the conversation-id-resolved emission in the stdout reader. -/
def resolvedPayload (sid claude_sid : String) : Json :=
  Json.obj [("sessionId", Json.str sid), ("claudeSessionId", Json.str claude_sid)]

/-- Payload of a `claude:stderr` emission. -/
def stderrPayload (sid text : String) : Json :=
  Json.obj [("sessionId", Json.str sid), ("text", Json.str text)]

/-- Payload of the raw passthrough `claude:stream_event` emission. -/
def rawEventPayload (sid : String) (event : Json) : Json :=
  Json.obj [("sessionId", Json.str sid), ("event", event)]

/-- Payload carrying only the session id (message-complete, compaction). -/
def sessionOnlyPayload (sid : String) : Json :=
  Json.obj [("sessionId", Json.str sid)]

/-- Payload of a `claude:tool_start` emission. -/
def toolStartPayload (sid tool_name tool_id : String) : Json :=
  Json.obj [("sessionId", Json.str sid), ("toolName", Json.str tool_name),
            ("toolId", Json.str tool_id)]

/-- Payload of a `claude:text_delta` emission. -/
def textDeltaPayload (sid text : String) : Json :=
  Json.obj [("sessionId", Json.str sid), ("text", Json.str text)]

/-- Payload of a `claude:tool_input_delta` emission. -/
def toolInputDeltaPayload (sid partial_json : String) : Json :=
  Json.obj [("sessionId", Json.str sid), ("partialJson", Json.str partial_json)]

/-- Payload of a `claude:usage_update` emission with the four counters. -/
def usagePayload (sid : String) (input_tokens output_tokens cache_creation cache_read : Nat) :
    Json :=
  Json.obj [("sessionId", Json.str sid),
            ("usage", Json.obj
              [("inputTokens", Json.num input_tokens),
               ("outputTokens", Json.num output_tokens),
               ("cacheCreationInputTokens", Json.num cache_creation),
               ("cacheReadInputTokens", Json.num cache_read)])]

/-- The error conditions of `ProcessManager`, one constructor per distinct
`Err(String)` shape in `process.rs`; `message` below renders the exact text. -/
inductive SendErr where
  | cliNotFound : SendErr
  | spawnFailed : String → SendErr
  | captureStdout : SendErr
  | captureStderr : SendErr
  | cannotResume : SendErr
  | sessionNotFound : String → SendErr
  | writeFailed : String → SendErr
  | closeFailed : String → SendErr
  | killFailed : String → SendErr
deriving DecidableEq

/-- The exact Rust error strings produced for each `SendErr` condition. -/
def SendErr.message : SendErr → String
  | SendErr.cliNotFound =>
      "Claude CLI not found. Install via Homebrew (brew install claude-code) or npm (npm install -g @anthropic-ai/claude-code)"
  | SendErr.spawnFailed e => "Failed to spawn claude CLI: " ++ e
  | SendErr.captureStdout => "Failed to capture stdout"
  | SendErr.captureStderr => "Failed to capture stderr"
  | SendErr.cannotResume => "No Claude session ID found — cannot resume session"
  | SendErr.sessionNotFound sid => "Session " ++ sid ++ " not found"
  | SendErr.writeFailed e => "Failed to write: " ++ e
  | SendErr.closeFailed e => "Failed to close stdin: " ++ e
  | SendErr.killFailed e => "Failed to kill process: " ++ e

/-- `StreamParser::handle_system_event`: subtype `init` only logs,
`compaction` publishes a compaction event, others are ignored. -/
def StreamParser.handle_system_event (session_id : String) (event : Json) : List Eff :=
  let subtype := ((event.get "subtype").bind Json.asStr).getD ""
  if subtype = "init" then []
  else if subtype = "compaction" then
    [Eff.emit CLAUDE_COMPACTION (sessionOnlyPayload session_id)]
  else []

/-- `StreamParser::handle_stream_event`: dispatch on the inner API streaming
event's discriminant. -/
def StreamParser.handle_stream_event (session_id : String) (inner : Json) : List Eff :=
  let inner_type := ((inner.get "type").bind Json.asStr).getD ""
  if inner_type = "message_start" then []
  else if inner_type = "content_block_start" then
    let content_block := inner.get "content_block"
    let block_type :=
      ((content_block.bind (fun cb => cb.get "type")).bind Json.asStr).getD ""
    if block_type = "tool_use" then
      let tool_name :=
        ((content_block.bind (fun cb => cb.get "name")).bind Json.asStr).getD "unknown"
      let tool_id :=
        ((content_block.bind (fun cb => cb.get "id")).bind Json.asStr).getD ""
      [Eff.emit CLAUDE_TOOL_START (toolStartPayload session_id tool_name tool_id)]
    else []
  else if inner_type = "content_block_delta" then
    match inner.get "delta" with
    | some delta =>
        let delta_type := ((delta.get "type").bind Json.asStr).getD ""
        if delta_type = "text_delta" then
          match (delta.get "text").bind Json.asStr with
          | some text =>
              [Eff.emit "claude:text_delta" (textDeltaPayload session_id text)]
          | none => []
        else if delta_type = "input_json_delta" then
          match (delta.get "partial_json").bind Json.asStr with
          | some partial_json =>
              [Eff.emit "claude:tool_input_delta"
                  (toolInputDeltaPayload session_id partial_json)]
          | none => []
        else []
    | none => []
  else if inner_type = "content_block_stop" then []
  else if inner_type = "message_delta" then
    match inner.get "usage" with
    | some usage =>
        let input_tokens := ((usage.get "input_tokens").bind Json.asU64).getD 0
        let output_tokens := ((usage.get "output_tokens").bind Json.asU64).getD 0
        let cache_creation :=
          ((usage.get "cache_creation_input_tokens").bind Json.asU64).getD 0
        let cache_read :=
          ((usage.get "cache_read_input_tokens").bind Json.asU64).getD 0
        [Eff.emit CLAUDE_USAGE_UPDATE
            (usagePayload session_id input_tokens output_tokens cache_creation cache_read)]
    | none => []
  else if inner_type = "message_stop" then
    [Eff.emit CLAUDE_MESSAGE_COMPLETE (sessionOnlyPayload session_id)]
  else []

/-- `StreamParser::handle_assistant_event`: informational only (logs). -/
def StreamParser.handle_assistant_event (_session_id : String) (_event : Json) : List Eff :=
  []

/-- `StreamParser::handle_result_event`: republishes cumulative usage (absent
counters default to zero) and always publishes a message-complete event;
`is_error` is only logged. -/
def StreamParser.handle_result_event (session_id : String) (event : Json) : List Eff :=
  let usageEffs :=
    match event.get "usage" with
    | some usage =>
        let input_tokens := ((usage.get "input_tokens").bind Json.asU64).getD 0
        let output_tokens := ((usage.get "output_tokens").bind Json.asU64).getD 0
        let cache_creation :=
          ((usage.get "cache_creation_input_tokens").bind Json.asU64).getD 0
        let cache_read :=
          ((usage.get "cache_read_input_tokens").bind Json.asU64).getD 0
        [Eff.emit CLAUDE_USAGE_UPDATE
            (usagePayload session_id input_tokens output_tokens cache_creation cache_read)]
    | none => []
  usageEffs ++ [Eff.emit CLAUDE_MESSAGE_COMPLETE (sessionOnlyPayload session_id)]

/-- `StreamParser::parse_line`: trim, drop empty lines, parse (via the
`parse` oracle standing for `serde_json::from_str`; on failure the line is
logged and dropped, nothing is emitted and no error reaches the caller — the
function is total), then always republish the raw value and dispatch on the
top-level discriminant. -/
def StreamParser.parse_line (parse : String → Option Json) (session_id line : String) :
    List Eff :=
  let trimmed := strTrim line
  if trimmed.data.isEmpty then []
  else
    match parse trimmed with
    | none => []
    | some event =>
        let event_type := ((event.get "type").bind Json.asStr).getD ""
        Eff.emit CLAUDE_STREAM_EVENT (rawEventPayload session_id event)
        :: (if event_type = "stream_event" then
              match event.get "event" with
              | some inner => StreamParser.handle_stream_event session_id inner
              | none => []
            else if event_type = "system" then
              StreamParser.handle_system_event session_id event
            else if event_type = "assistant" then
              StreamParser.handle_assistant_event session_id event
            else if event_type = "result" then
              StreamParser.handle_result_event session_id event
            else [])

/-- The fixed ordered list of well-known install locations probed by both
`detect_cli_path` and `resolve_cli_path` (three system paths, then two
user-specific paths when a home directory is known). -/
def cliCandidates (home : Option String) : List String :=
  ["/opt/homebrew/bin/claude", "/usr/local/bin/claude", "/usr/bin/claude"]
  ++ (match home with
      | some h => [h ++ "/.npm/bin/claude", h ++ "/.local/bin/claude"]
      | none => [])

/-- `ProcessManager::resolve_cli_path` (used by `spawn`): an explicitly
provided path wins, else the first existing candidate, else the
binary-not-found error with the install hint.  `fsExists` is the oracle for
`std::path::Path::exists`, `home` for `dirs::home_dir()`. -/
def ProcessManager.resolve_cli_path (fsExists : String → Bool) (home : Option String)
    (provided : Option String) : Except SendErr String :=
  match provided with
  | some path => Except.ok path
  | none =>
      match (cliCandidates home).find? fsExists with
      | some path => Except.ok path
      | none => Except.error SendErr.cliNotFound

/-- `ProcessManager::detect_cli_path`: query the shell first (`which claude`;
`whichOut` is `some raw-stdout` when the command succeeded), falling back to
the candidate list. -/
def ProcessManager.detect_cli_path (whichOut : Option String) (fsExists : String → Bool)
    (home : Option String) : Option String :=
  match whichOut with
  | some out =>
      let path := strTrim out
      if path.data.isEmpty then (cliCandidates home).find? fsExists
      else some path
  | none => (cliCandidates home).find? fsExists

/-- Resolution order as the spec states it for `spawn`: explicit path, else
candidate probe, else shell query (`shellResolve`), else the not-found error.
Stated from the spec's words, to be compared with
`ProcessManager.resolve_cli_path` above. -/
def resolveCliPathSpec (fsExists : String → Bool) (home : Option String)
    (shellResolve : Option String) (provided : Option String) : Except SendErr String :=
  match provided with
  | some path => Except.ok path
  | none =>
      match (cliCandidates home).find? fsExists with
      | some path => Except.ok path
      | none =>
          match shellResolve with
          | some path => Except.ok path
          | none => Except.error SendErr.cliNotFound

/-- Oracle for the environment-dependent steps of `spawn`: file-system
probing, home directory, `cmd.spawn()` outcome, and whether each standard
stream handle could be taken/captured. -/
structure SpawnEnv where
  fsExists : String → Bool
  home : Option String
  spawnErr : Option String
  stdinPresent : Bool
  stdoutPresent : Bool
  stderrPresent : Bool

/-- The conditions under which `spawn` (called with `claude_cli_path = none`)
reaches its success path. -/
def SpawnEnv.spawnSucceeds (env : SpawnEnv) : Prop :=
  ((cliCandidates env.home).find? env.fsExists).isSome = true
  ∧ env.spawnErr = none ∧ env.stdoutPresent = true ∧ env.stderrPresent = true

/-- Result of one manager operation: the registries afterwards, the effects
performed in program order, and the `Result<(), String>` value. -/
structure Outcome where
  state : ManagerState
  effs : List Eff
  result : Except SendErr Unit

/-- In-place status update of a registered process (`procs.get_mut` + field
assignment); no-op when the handle has no record. -/
def setStatus (st : ManagerState) (sid : String) (s : ProcessStatus) : ManagerState :=
  match alist.lookup st.processes sid with
  | some proc =>
      { st with processes := alist.insert st.processes sid { proc with status := s } }
  | none => st

/-- Clearing the stdin write end of a registered process (`proc.stdin = None`);
no-op when the handle has no record. -/
def clearStdin (st : ManagerState) (sid : String) : ManagerState :=
  match alist.lookup st.processes sid with
  | some proc =>
      { st with processes := alist.insert st.processes sid { proc with stdin := none } }
  | none => st

/-- The registry/map updates of a successful `spawn`: seed the Conversation
ID Map when resuming, insert the new `Starting` record (stdin as taken from
the child), then promote it to `Running`. -/
def spawnRegister (env : SpawnEnv) (opts : SpawnOptions) (st : ManagerState) : ManagerState :=
  let st1 :=
    match opts.resume_session_id with
    | some claude_sid =>
        { st with claude_session_map :=
            alist.insert st.claude_session_map opts.session_id claude_sid }
    | none => st
  let proc : ClaudeProcess :=
    { stdin := if env.stdinPresent then some () else none
      project_path := opts.project_path
      status := ProcessStatus.Starting }
  let st2 := { st1 with processes := alist.insert st1.processes opts.session_id proc }
  setStatus st2 opts.session_id ProcessStatus.Running

/-- `ProcessManager::spawn`: resolve the binary, launch the child, take the
three stream handles, register the process (map seeding, `Starting` record,
promotion to `Running`), and publish the `active` status event.  The two
background reader tasks it starts are modelled separately (`stdoutTask`,
`stderrTask`) since they run on the child's future output. -/
def ProcessManager.spawn (env : SpawnEnv) (opts : SpawnOptions) (st : ManagerState) :
    Outcome :=
  match ProcessManager.resolve_cli_path env.fsExists env.home opts.claude_cli_path with
  | Except.error e => { state := st, effs := [], result := Except.error e }
  | Except.ok _cli_path =>
      match env.spawnErr with
      | some e =>
          { state := st, effs := [], result := Except.error (SendErr.spawnFailed e) }
      | none =>
          if env.stdoutPresent = false then
            { state := st, effs := [Eff.spawned opts],
              result := Except.error SendErr.captureStdout }
          else if env.stderrPresent = false then
            { state := st, effs := [Eff.spawned opts],
              result := Except.error SendErr.captureStderr }
          else
            { state := spawnRegister env opts st
              effs := [Eff.spawned opts,
                       Eff.emit CLAUDE_SESSION_STATUS
                         (statusPayload opts.session_id "active")]
              result := Except.ok () }

/-- The respawn decision at the top of `ProcessManager::send_message`:
respawn iff there is no record, or its stdin is gone, or it is `Completed`. -/
def needs_respawn (procs : List (String × ClaudeProcess)) (session_id : String) : Bool :=
  match alist.lookup procs session_id with
  | some proc => proc.stdin.isNone || (proc.status == ProcessStatus.Completed)
  | none => true

/-- `ProcessManager::send_message`.  `killErr`, `writeErr` and `shutdownErr`
are the oracles for `child.kill()`, `stdin.write_all` and `stdin.shutdown()`
(`some e` = that call fails with I/O error text `e`); the kill outcome is
discarded by the code (`let _ = old.child.kill()`), hence unused here. -/
def ProcessManager.send_message (env : SpawnEnv)
    (killErr writeErr shutdownErr : Option String) (st : ManagerState)
    (session_id message project_path : String) : Outcome :=
  if needs_respawn st.processes session_id then
    let resolved_path :=
      match alist.lookup st.processes session_id with
      | some p => p.project_path
      | none => project_path
    let claude_session_id :=
      (alist.lookup st.claude_session_map session_id).orElse (fun _ => some session_id)
    match claude_session_id with
    | none => { state := st, effs := [], result := Except.error SendErr.cannotResume }
    | some claude_sid =>
        let removal :=
          match alist.lookup st.processes session_id with
          | some _ =>
              ({ st with processes := alist.erase st.processes session_id },
               [Eff.kill session_id])
          | none => (st, ([] : List Eff))
        let out := ProcessManager.spawn env
          { session_id := session_id, project_path := resolved_path,
            claude_cli_path := none, resume_session_id := some claude_sid,
            model := none } removal.1
        match out.result with
        | Except.error e =>
            { state := out.state, effs := removal.2 ++ out.effs,
              result := Except.error e }
        | Except.ok _ =>
            match alist.lookup out.state.processes session_id with
            | some proc =>
                match proc.stdin with
                | some _ =>
                    match writeErr with
                    | some e =>
                        { state := out.state, effs := removal.2 ++ out.effs,
                          result := Except.error (SendErr.writeFailed e) }
                    | none =>
                        match shutdownErr with
                        | some e =>
                            { state := out.state,
                              effs := removal.2 ++ out.effs
                                ++ [Eff.wroteStdin session_id message],
                              result := Except.error (SendErr.closeFailed e) }
                        | none =>
                            { state := clearStdin out.state session_id,
                              effs := removal.2 ++ out.effs
                                ++ [Eff.wroteStdin session_id message,
                                    Eff.shutdownStdin session_id],
                              result := Except.ok () }
                | none =>
                    { state := out.state, effs := removal.2 ++ out.effs,
                      result := Except.ok () }
            | none =>
                { state := out.state, effs := removal.2 ++ out.effs,
                  result := Except.ok () }
  else
    match alist.lookup st.processes session_id with
    | none =>
        { state := st, effs := [],
          result := Except.error (SendErr.sessionNotFound session_id) }
    | some proc =>
        match proc.stdin with
        | some _ =>
            match writeErr with
            | some e =>
                { state := st, effs := [],
                  result := Except.error (SendErr.writeFailed e) }
            | none =>
                match shutdownErr with
                | some e =>
                    { state := st, effs := [Eff.wroteStdin session_id message],
                      result := Except.error (SendErr.closeFailed e) }
                | none =>
                    { state := clearStdin st session_id,
                      effs := [Eff.wroteStdin session_id message,
                               Eff.shutdownStdin session_id],
                      result := Except.ok () }
        | none => { state := st, effs := [], result := Except.ok () }

/-- `ProcessManager::kill`: remove the record (absence is a no-op) and
terminate the child; a kill failure is surfaced but removal stands. -/
def ProcessManager.kill (killErr : Option String) (st : ManagerState) (session_id : String) :
    Outcome :=
  match alist.lookup st.processes session_id with
  | some _ =>
      let st1 := { st with processes := alist.erase st.processes session_id }
      match killErr with
      | some e =>
          { state := st1, effs := [Eff.kill session_id],
            result := Except.error (SendErr.killFailed e) }
      | none =>
          { state := st1, effs := [Eff.kill session_id], result := Except.ok () }
  | none => { state := st, effs := [], result := Except.ok () }

/-- The opportunistic capture at the top of the stdout reader loop in
`ProcessManager::spawn`: parse the raw line, read the top-level `session_id`
string, and if the Conversation ID Map has no entry for this handle yet,
record it and publish the conversation-id-resolved event. -/
def sessionIdCapture (parse : String → Option Json) (sid line : String)
    (st : ManagerState) : ManagerState × List Eff :=
  match parse line with
  | some val =>
      match (val.get "session_id").bind Json.asStr with
      | some sid_val =>
          if (alist.lookup st.claude_session_map sid).isNone then
            ({ st with claude_session_map :=
                 alist.insert st.claude_session_map sid sid_val },
             [Eff.emit CLAUDE_SESSION_ID_RESOLVED (resolvedPayload sid sid_val)])
          else (st, [])
      | none => (st, [])
  | none => (st, [])

/-- The stdout reader loop: for each line, the session-id capture runs first,
then the line goes through `StreamParser::parse_line`. -/
def stdoutLoop (parse : String → Option Json) (sid : String) :
    List String → ManagerState → ManagerState × List Eff
  | [], st => (st, [])
  | line :: rest, st =>
      let step := sessionIdCapture parse sid line st
      let lineEffs := StreamParser.parse_line parse sid line
      let tail := stdoutLoop parse sid rest step.1
      (tail.1, step.2 ++ lineEffs ++ tail.2)

/-- The whole stdout reader task: run the loop over the child's output lines,
then (at end of stream) mark the record `Completed` if it is still registered
and publish the `completed` status event. -/
def stdoutTask (parse : String → Option Json) (sid : String) (lines : List String)
    (st : ManagerState) : ManagerState × List Eff :=
  let loop := stdoutLoop parse sid lines st
  let st1 :=
    match alist.lookup loop.1.processes sid with
    | some proc =>
        { loop.1 with processes :=
            alist.insert loop.1.processes sid { proc with status := ProcessStatus.Completed } }
    | none => loop.1
  (st1, loop.2 ++ [Eff.emit CLAUDE_SESSION_STATUS (statusPayload sid "completed")])

/-- The stderr reader task: forward every line as a `claude:stderr` event;
after end of stream, if any line was seen and the record is still
`Starting`/`Running`, promote it to `Error` and publish the error status
event.  The task never kills the child. -/
def stderrTask (sid : String) (lines : List String) (st : ManagerState) :
    ManagerState × List Eff :=
  let effs := lines.map (fun line => Eff.emit CLAUDE_STDERR (stderrPayload sid line))
  let had_stderr := !lines.isEmpty
  if had_stderr then
    match alist.lookup st.processes sid with
    | some proc =>
        if proc.status = ProcessStatus.Starting ∨ proc.status = ProcessStatus.Running then
          ({ st with processes :=
               alist.insert st.processes sid { proc with status := ProcessStatus.Error } },
           effs ++ [Eff.emit CLAUDE_SESSION_STATUS (statusPayload sid "error")])
        else (st, effs)
    | none => (st, effs)
  else (st, effs)

/-- Number of emissions of a given event name in an effect list. -/
def countName (name : String) : List Eff → Nat
  | [] => 0
  | Eff.emit n _ :: rest =>
      (if n = name then 1 else 0) + countName name rest
  | _ :: rest => countName name rest

/-- The top-level `session_id` string carried by one raw output line, if any
(what the stdout reader's opportunistic capture extracts). -/
def lineSessionId (parse : String → Option Json) (line : String) : Option String :=
  (parse line).bind (fun v => (v.get "session_id").bind Json.asStr)

/-- The external conversation id carried by the first output line that has a
top-level `session_id` string, if any. -/
def firstCarrier (parse : String → Option Json) (lines : List String) : Option String :=
  lines.findSome? (lineSessionId parse)

/-- All dispatcher emissions over a list of lines (the dispatcher is
stateless, one line at a time). -/
def linesEvents (parse : String → Option Json) (sid : String) (lines : List String) :
    List Eff :=
  (lines.map (StreamParser.parse_line parse sid)).flatten

theorem alist.lookup_insert_self {α : Type} (l : List (String × α)) (k : String) (v : α) :
    alist.lookup (alist.insert l k v) k = some v := by
  simp [alist.insert, alist.lookup]

theorem alist.lookup_erase_self {α : Type} (l : List (String × α)) (k : String) :
    alist.lookup (alist.erase l k) k = none := by
  induction l with
  | nil => simp [alist.erase, alist.lookup]
  | cons hd tl ih =>
      obtain ⟨k', v'⟩ := hd
      by_cases h : k' = k <;> simp [alist.erase, alist.lookup, h, ih]

theorem resolve_cli_path_error_shape (fsE : String → Bool) (home : Option String)
    (provided : Option String) (e : SendErr)
    (h : ProcessManager.resolve_cli_path fsE home provided = Except.error e) :
    e = SendErr.cliNotFound := by
  unfold ProcessManager.resolve_cli_path at h
  split at h
  · simp_all
  · split at h <;> simp_all

theorem spawn_no_cannot_resume (env : SpawnEnv) (opts : SpawnOptions) (st : ManagerState) :
    (ProcessManager.spawn env opts st).result ≠ Except.error SendErr.cannotResume := by
  unfold ProcessManager.spawn
  split
  · rename_i e h
    have := resolve_cli_path_error_shape _ _ _ _ h
    simp_all
  · split
    · simp
    · split
      · simp
      · split <;> simp

theorem spawn_success (env : SpawnEnv) (opts : SpawnOptions) (st : ManagerState) (p : String)
    (hfind : (cliCandidates env.home).find? env.fsExists = some p)
    (hcli : opts.claude_cli_path = none)
    (hs : env.spawnErr = none) (ho : env.stdoutPresent = true)
    (he : env.stderrPresent = true) :
    ProcessManager.spawn env opts st =
      { state := spawnRegister env opts st,
        effs := [Eff.spawned opts,
                 Eff.emit CLAUDE_SESSION_STATUS (statusPayload opts.session_id "active")],
        result := Except.ok () } := by
  unfold ProcessManager.spawn ProcessManager.resolve_cli_path
  rw [hcli]
  simp [hfind, hs, ho, he]

theorem spawnRegister_lookup (env : SpawnEnv) (sid path : String)
    (cli resume mdl : Option String) (st : ManagerState) :
    alist.lookup (spawnRegister env
        { session_id := sid, project_path := path, claude_cli_path := cli,
          resume_session_id := resume, model := mdl } st).processes sid =
      some { stdin := if env.stdinPresent then some () else none,
             project_path := path,
             status := ProcessStatus.Running } := by
  unfold spawnRegister setStatus
  simp [alist.lookup_insert_self]

theorem needs_respawn_false_elim (procs : List (String × ClaudeProcess)) (sid : String)
    (h : needs_respawn procs sid = false) :
    ∃ proc, alist.lookup procs sid = some proc
      ∧ proc.stdin = some () ∧ proc.status ≠ ProcessStatus.Completed := by
  unfold needs_respawn at h
  cases hl : alist.lookup procs sid with
  | none => simp [hl] at h
  | some proc =>
      rw [hl] at h
      simp only [Bool.or_eq_false_iff] at h
      obtain ⟨h1, h2⟩ := h
      refine ⟨proc, rfl, ?_, ?_⟩
      · cases hs : proc.stdin with
        | none => simp [hs] at h1
        | some u => cases u; rfl
      · simp only [beq_eq_false_iff_ne, ne_eq] at h2
        exact h2

theorem spawn_error_ne_cannot_resume {env : SpawnEnv} {opts : SpawnOptions}
    {st : ManagerState} {e : SendErr}
    (h : (ProcessManager.spawn env opts st).result = Except.error e) :
    e ≠ SendErr.cannotResume := by
  intro hc
  subst hc
  exact spawn_no_cannot_resume env opts st h

/-- C9: on the respawn path of `send_message` a resume identifier is always
determined (the mapped conversation id, else the session handle itself), so
the `CannotResume` error branch is unreachable: `send_message` never returns
the no-resumable-identifier error. -/
theorem send_message_cannot_resume_unreachable (env : SpawnEnv)
    (killErr writeErr shutdownErr : Option String) (st : ManagerState)
    (session_id message project_path : String) :
    (ProcessManager.send_message env killErr writeErr shutdownErr
        st session_id message project_path).result
      ≠ Except.error SendErr.cannotResume := by
  unfold ProcessManager.send_message
  split
  · cases hproc : alist.lookup st.processes session_id <;>
      cases hmap : alist.lookup st.claude_session_map session_id <;>
      simp only [hproc, hmap, Option.orElse] <;>
      (split
       · rename_i e heq
         exact fun hc => spawn_error_ne_cannot_resume heq (by simpa using hc)
       · repeat' split
         all_goals simp)
  · repeat' split
    all_goals simp

/-- Whether an effect list contains a process spawn. -/
def containsSpawn : List Eff → Bool
  | [] => false
  | Eff.spawned _ :: _ => true
  | _ :: rest => containsSpawn rest

theorem containsSpawn_append (l1 l2 : List Eff) :
    containsSpawn (l1 ++ l2) = (containsSpawn l1 || containsSpawn l2) := by
  induction l1 with
  | nil => simp [containsSpawn]
  | cons hd tl ih => cases hd <;> simp [containsSpawn, ih]

/-- C1: for every `send_message` call, a respawn is performed iff the
registry has no record for the handle, or the record's stdin write end is
absent, or its status is `Completed` (first conjunct: the code's respawn
test equals that condition; second: no respawn ever happens outside it;
third: under it, a successful environment yields a spawn); otherwise the
message is written to the existing pipe and the pipe shut down, with no
respawn (fourth conjunct). -/
theorem send_message_respawn_iff (env : SpawnEnv)
    (killErr writeErr shutdownErr : Option String) (st : ManagerState)
    (session_id message project_path : String) :
    (needs_respawn st.processes session_id = true ↔
      alist.lookup st.processes session_id = none
      ∨ ∃ proc, alist.lookup st.processes session_id = some proc
          ∧ (proc.stdin = none ∨ proc.status = ProcessStatus.Completed))
    ∧ (containsSpawn (ProcessManager.send_message env killErr writeErr shutdownErr
          st session_id message project_path).effs = true
        → needs_respawn st.processes session_id = true)
    ∧ (needs_respawn st.processes session_id = true → env.spawnSucceeds
        → containsSpawn (ProcessManager.send_message env killErr writeErr shutdownErr
            st session_id message project_path).effs = true)
    ∧ (needs_respawn st.processes session_id = false → writeErr = none
        → shutdownErr = none
        → ProcessManager.send_message env killErr writeErr shutdownErr
              st session_id message project_path
          = { state := clearStdin st session_id,
              effs := [Eff.wroteStdin session_id message,
                       Eff.shutdownStdin session_id],
              result := Except.ok () }) := by
  refine ⟨?_, ?_, ?_, ?_⟩
  · unfold needs_respawn
    cases hl : alist.lookup st.processes session_id with
    | none => simp
    | some proc => simp [Option.isNone_iff_eq_none]
  · intro hmem
    by_contra hn
    rw [Bool.not_eq_true] at hn
    obtain ⟨proc, hl, hstdin, _⟩ := needs_respawn_false_elim _ _ hn
    unfold ProcessManager.send_message at hmem
    rw [hn] at hmem
    simp only [Bool.false_eq_true, if_false, hl, hstdin] at hmem
    rcases writeErr with _ | e <;> rcases shutdownErr with _ | e' <;>
      simp [containsSpawn] at hmem
  · intro hn hsucc
    unfold SpawnEnv.spawnSucceeds at hsucc
    obtain ⟨hfind, hs, ho, he⟩ := hsucc
    obtain ⟨p, hp⟩ := Option.isSome_iff_exists.mp hfind
    unfold ProcessManager.send_message
    rw [hn]
    simp only [if_true]
    cases hproc : alist.lookup st.processes session_id <;>
      cases hmap : alist.lookup st.claude_session_map session_id <;>
      simp only [hproc, hmap, Option.orElse] <;>
      rw [spawn_success env _ _ p hp rfl hs ho he] <;>
      (repeat' split) <;>
      simp [containsSpawn_append, containsSpawn]
  · intro hn hw hsd
    obtain ⟨proc, hl, hstdin, _⟩ := needs_respawn_false_elim _ _ hn
    unfold ProcessManager.send_message
    rw [hn]
    simp only [Bool.false_eq_true, if_false, hl, hstdin, hw, hsd]

/-- Witness for C1: a session with an open stdin pipe and `Running` status
takes the direct-write path. -/
theorem send_message_respawn_iff_witness :
    ProcessManager.send_message
      { fsExists := fun _ => false, home := none, spawnErr := none,
        stdinPresent := true, stdoutPresent := true, stderrPresent := true }
      none none none
      { processes := [("s", { stdin := some (), project_path := "/p",
                              status := ProcessStatus.Running })],
        claude_session_map := [] }
      "s" "hello" "/p"
      = { state := clearStdin
            { processes := [("s", { stdin := some (), project_path := "/p",
                                    status := ProcessStatus.Running })],
              claude_session_map := [] } "s",
          effs := [Eff.wroteStdin "s" "hello", Eff.shutdownStdin "s"],
          result := Except.ok () } :=
  (send_message_respawn_iff _ _ _ _ _ _ _ _).2.2.2 (by decide) rfl rfl

/-- C2: sending a second message after the first turn's pipe was closed
triggers exactly one kill-then-respawn cycle — the old record is removed
(the kill outcome `killErr` being immaterial) before the new spawn appears in
the effect order — and the new process's resume directive is the mapped
conversation id, or the session handle itself if none was recorded. -/
theorem send_message_second_respawn (env : SpawnEnv)
    (killErr writeErr shutdownErr : Option String) (st : ManagerState)
    (session_id message project_path : String) (proc : ClaudeProcess)
    (hproc : alist.lookup st.processes session_id = some proc)
    (hstdin : proc.stdin = none)
    (hsucc : env.spawnSucceeds) (hsp : env.stdinPresent = true)
    (hw : writeErr = none) (hsd : shutdownErr = none) :
    (ProcessManager.send_message env killErr writeErr shutdownErr
        st session_id message project_path).effs
      = [Eff.kill session_id,
         Eff.spawned
           { session_id := session_id, project_path := proc.project_path,
             claude_cli_path := none,
             resume_session_id :=
               some ((alist.lookup st.claude_session_map session_id).getD session_id),
             model := none },
         Eff.emit CLAUDE_SESSION_STATUS (statusPayload session_id "active"),
         Eff.wroteStdin session_id message,
         Eff.shutdownStdin session_id]
    ∧ (ProcessManager.send_message env killErr writeErr shutdownErr
        st session_id message project_path).result = Except.ok () := by
  have hn : needs_respawn st.processes session_id = true := by
    simp [needs_respawn, hproc, hstdin]
  unfold SpawnEnv.spawnSucceeds at hsucc
  obtain ⟨hfind, hs, ho, he⟩ := hsucc
  obtain ⟨p, hp⟩ := Option.isSome_iff_exists.mp hfind
  unfold ProcessManager.send_message
  rw [hn]
  simp only [if_true]
  cases hmap : alist.lookup st.claude_session_map session_id <;>
    simp only [hproc, hmap, Option.orElse, Option.getD] <;>
    rw [spawn_success env _ _ p hp rfl hs ho he] <;>
    simp [spawnRegister_lookup, hsp, hw, hsd]

/-- Witness for C2: a session whose pipe is closed and whose conversation id
`ext-9` was recorded respawns once with resume directive `ext-9`; the kill
failure oracle is set and is immaterial. -/
theorem send_message_second_respawn_witness :
    (ProcessManager.send_message
        { fsExists := fun _ => true, home := none, spawnErr := none,
          stdinPresent := true, stdoutPresent := true, stderrPresent := true }
        (some "kill refused") none none
        { processes := [("s", { stdin := none, project_path := "/p",
                                status := ProcessStatus.Running })],
          claude_session_map := [("s", "ext-9")] }
        "s" "hello" "/fallback").effs
      = [Eff.kill "s",
         Eff.spawned
           { session_id := "s", project_path := "/p", claude_cli_path := none,
             resume_session_id :=
               some ((alist.lookup [("s", "ext-9")] "s").getD "s"),
             model := none },
         Eff.emit CLAUDE_SESSION_STATUS (statusPayload "s" "active"),
         Eff.wroteStdin "s" "hello",
         Eff.shutdownStdin "s"]
    ∧ (ProcessManager.send_message
        { fsExists := fun _ => true, home := none, spawnErr := none,
          stdinPresent := true, stdoutPresent := true, stderrPresent := true }
        (some "kill refused") none none
        { processes := [("s", { stdin := none, project_path := "/p",
                                status := ProcessStatus.Running })],
          claude_session_map := [("s", "ext-9")] }
        "s" "hello" "/fallback").result = Except.ok () := by
  have h := send_message_second_respawn
    { fsExists := fun _ => true, home := none, spawnErr := none,
      stdinPresent := true, stdoutPresent := true, stderrPresent := true }
    (some "kill refused") none none
    { processes := [("s", { stdin := none, project_path := "/p",
                            status := ProcessStatus.Running })],
      claude_session_map := [("s", "ext-9")] }
    "s" "hello" "/fallback"
    { stdin := none, project_path := "/p", status := ProcessStatus.Running }
    rfl rfl (by unfold SpawnEnv.spawnSucceeds; exact ⟨rfl, rfl, rfl, rfl⟩)
    rfl rfl rfl
  exact h

/-- C8: on the direct-write path of `send_message`, a write failure or a
shutdown failure is surfaced as an error and the registries — in particular
the record's stdin write end — are left untouched; the write end is cleared
only when both the write and the shutdown succeed. -/
theorem send_message_io_error_keeps_pipe (env : SpawnEnv)
    (killErr shutdownErr : Option String) (st : ManagerState)
    (session_id message project_path : String) (proc : ClaudeProcess)
    (hproc : alist.lookup st.processes session_id = some proc)
    (hstdin : proc.stdin = some ())
    (hstatus : proc.status ≠ ProcessStatus.Completed) :
    (∀ e, ProcessManager.send_message env killErr (some e) shutdownErr
          st session_id message project_path
        = { state := st, effs := [],
            result := Except.error (SendErr.writeFailed e) })
    ∧ (∀ e, ProcessManager.send_message env killErr none (some e)
          st session_id message project_path
        = { state := st, effs := [Eff.wroteStdin session_id message],
            result := Except.error (SendErr.closeFailed e) })
    ∧ ProcessManager.send_message env killErr none none
          st session_id message project_path
        = { state := clearStdin st session_id,
            effs := [Eff.wroteStdin session_id message,
                     Eff.shutdownStdin session_id],
            result := Except.ok () }
    ∧ alist.lookup (clearStdin st session_id).processes session_id
        = some { proc with stdin := none } := by
  have hn : needs_respawn st.processes session_id = false := by
    simp [needs_respawn, hproc, hstdin, hstatus]
  refine ⟨?_, ?_, ?_, ?_⟩
  · intro e
    unfold ProcessManager.send_message
    rw [hn]
    simp only [Bool.false_eq_true, if_false, hproc, hstdin]
  · intro e
    unfold ProcessManager.send_message
    rw [hn]
    simp only [Bool.false_eq_true, if_false, hproc, hstdin]
  · unfold ProcessManager.send_message
    rw [hn]
    simp only [Bool.false_eq_true, if_false, hproc, hstdin]
  · simp [clearStdin, hproc, alist.lookup_insert_self]

/-- Witness for C8: a failing write on a live pipe surfaces the error and
keeps the record's stdin write end. -/
theorem send_message_io_error_keeps_pipe_witness :
    ProcessManager.send_message
        { fsExists := fun _ => false, home := none, spawnErr := none,
          stdinPresent := true, stdoutPresent := true, stderrPresent := true }
        none (some "broken pipe") none
        { processes := [("s", { stdin := some (), project_path := "/p",
                                status := ProcessStatus.Running })],
          claude_session_map := [] }
        "s" "hello" "/p"
      = { state := { processes := [("s", { stdin := some (), project_path := "/p",
                                           status := ProcessStatus.Running })],
                     claude_session_map := [] },
          effs := [],
          result := Except.error (SendErr.writeFailed "broken pipe") } := by
  have h := send_message_io_error_keeps_pipe
    { fsExists := fun _ => false, home := none, spawnErr := none,
      stdinPresent := true, stdoutPresent := true, stderrPresent := true }
    none none
    { processes := [("s", { stdin := some (), project_path := "/p",
                            status := ProcessStatus.Running })],
      claude_session_map := [] }
    "s" "hello" "/p"
    { stdin := some (), project_path := "/p", status := ProcessStatus.Running }
    rfl rfl (by decide)
  exact h.1 "broken pipe"

/-- C10: on the respawn path, if the freshly spawned process yields no stdin
write end, `send_message` returns success without any stdin write: the
message is silently dropped rather than reported as an error. -/
theorem send_message_respawn_silent_drop (env : SpawnEnv)
    (killErr writeErr shutdownErr : Option String) (st : ManagerState)
    (session_id message project_path : String)
    (hn : needs_respawn st.processes session_id = true)
    (hsucc : env.spawnSucceeds) (hsp : env.stdinPresent = false) :
    (ProcessManager.send_message env killErr writeErr shutdownErr
        st session_id message project_path).result = Except.ok ()
    ∧ (∀ s m, Eff.wroteStdin s m ∉ (ProcessManager.send_message env killErr
          writeErr shutdownErr st session_id message project_path).effs)
    ∧ ∃ proc, alist.lookup (ProcessManager.send_message env killErr writeErr
          shutdownErr st session_id message project_path).state.processes session_id
        = some proc ∧ proc.stdin = none := by
  unfold SpawnEnv.spawnSucceeds at hsucc
  obtain ⟨hfind, hs, ho, he⟩ := hsucc
  obtain ⟨p, hp⟩ := Option.isSome_iff_exists.mp hfind
  unfold ProcessManager.send_message
  rw [hn]
  simp only [if_true]
  cases hproc : alist.lookup st.processes session_id <;>
    cases hmap : alist.lookup st.claude_session_map session_id <;>
    simp only [hproc, hmap, Option.orElse] <;>
    rw [spawn_success env _ _ p hp rfl hs ho he] <;>
    simp [spawnRegister_lookup, hsp]

/-- Witness for C10: a never-started session respawns into a child whose
stdin could not be taken; the message is dropped and the call still
succeeds. -/
theorem send_message_respawn_silent_drop_witness :
    (ProcessManager.send_message
        { fsExists := fun _ => true, home := none, spawnErr := none,
          stdinPresent := false, stdoutPresent := true, stderrPresent := true }
        none none none
        { processes := [], claude_session_map := [] }
        "s" "hello" "/p").result = Except.ok ()
    ∧ (∀ s m, Eff.wroteStdin s m ∉ (ProcessManager.send_message
          { fsExists := fun _ => true, home := none, spawnErr := none,
            stdinPresent := false, stdoutPresent := true, stderrPresent := true }
          none none none
          { processes := [], claude_session_map := [] }
          "s" "hello" "/p").effs)
    ∧ ∃ proc, alist.lookup (ProcessManager.send_message
          { fsExists := fun _ => true, home := none, spawnErr := none,
            stdinPresent := false, stdoutPresent := true, stderrPresent := true }
          none none none
          { processes := [], claude_session_map := [] }
          "s" "hello" "/p").state.processes "s"
        = some proc ∧ proc.stdin = none := by
  have h := send_message_respawn_silent_drop
    { fsExists := fun _ => true, home := none, spawnErr := none,
      stdinPresent := false, stdoutPresent := true, stderrPresent := true }
    none none none
    { processes := [], claude_session_map := [] }
    "s" "hello" "/p"
    (by decide)
    (by unfold SpawnEnv.spawnSucceeds; exact ⟨rfl, rfl, rfl, rfl⟩) rfl
  exact h

theorem countName_append (n : String) (l1 l2 : List Eff) :
    countName n (l1 ++ l2) = countName n l1 + countName n l2 := by
  induction l1 with
  | nil => simp [countName]
  | cons hd tl ih => cases hd <;> simp [countName, ih] <;> omega

theorem countName_map_emit (n m : String) (f : String → Json) (l : List String)
    (h : (m = n) = False) :
    countName n (l.map (fun x => Eff.emit m (f x))) = 0 := by
  induction l with
  | nil => simp [countName]
  | cons hd tl ih => simp [countName, h, ih]

/-- C4: if standard error emits at least one line while the record's status
is `Starting` or `Running`, the status becomes `Error` and exactly one
session-status event (the error one) is published, no matter how many
stderr lines followed; the task never kills the process. -/
theorem stderr_error_status_once (sid : String) (lines : List String)
    (st : ManagerState) (proc : ClaudeProcess)
    (hproc : alist.lookup st.processes sid = some proc)
    (hst : proc.status = ProcessStatus.Starting ∨ proc.status = ProcessStatus.Running)
    (hl : lines ≠ []) :
    alist.lookup (stderrTask sid lines st).1.processes sid
      = some { proc with status := ProcessStatus.Error }
    ∧ (stderrTask sid lines st).2
      = lines.map (fun l => Eff.emit CLAUDE_STDERR (stderrPayload sid l))
        ++ [Eff.emit CLAUDE_SESSION_STATUS (statusPayload sid "error")]
    ∧ countName CLAUDE_SESSION_STATUS (stderrTask sid lines st).2 = 1
    ∧ ∀ s, Eff.kill s ∉ (stderrTask sid lines st).2 := by
  have hne : lines.isEmpty = false := by
    cases lines with
    | nil => exact absurd rfl hl
    | cons hd tl => rfl
  unfold stderrTask
  rw [hne]
  simp only [Bool.not_false, if_true, hproc, if_pos hst]
  refine ⟨alist.lookup_insert_self _ _ _, by trivial, ?_, ?_⟩
  · rw [countName_append, countName_map_emit _ _ _ _ (by decide)]
    simp [countName]
  · intro s
    simp [List.mem_append, List.mem_map]

/-- Witness for C4: two stderr lines against a `Running` session yield the
`Error` status and a single error status event. -/
theorem stderr_error_status_once_witness :
    alist.lookup (stderrTask "s" ["oops", "more"]
        { processes := [("s", { stdin := none, project_path := "/p",
                                status := ProcessStatus.Running })],
          claude_session_map := [] }).1.processes "s"
      = some { stdin := none, project_path := "/p", status := ProcessStatus.Error }
    ∧ (stderrTask "s" ["oops", "more"]
        { processes := [("s", { stdin := none, project_path := "/p",
                                status := ProcessStatus.Running })],
          claude_session_map := [] }).2
      = ["oops", "more"].map (fun l => Eff.emit CLAUDE_STDERR (stderrPayload "s" l))
        ++ [Eff.emit CLAUDE_SESSION_STATUS (statusPayload "s" "error")]
    ∧ countName CLAUDE_SESSION_STATUS (stderrTask "s" ["oops", "more"]
        { processes := [("s", { stdin := none, project_path := "/p",
                                status := ProcessStatus.Running })],
          claude_session_map := [] }).2 = 1
    ∧ ∀ s, Eff.kill s ∉ (stderrTask "s" ["oops", "more"]
        { processes := [("s", { stdin := none, project_path := "/p",
                                status := ProcessStatus.Running })],
          claude_session_map := [] }).2 := by
  have h := stderr_error_status_once "s" ["oops", "more"]
    { processes := [("s", { stdin := none, project_path := "/p",
                            status := ProcessStatus.Running })],
      claude_session_map := [] }
    { stdin := none, project_path := "/p", status := ProcessStatus.Running }
    rfl (Or.inr rfl) (by decide)
  exact h

theorem sessionIdCapture_state (parse : String → Option Json) (sid line : String)
    (st : ManagerState) :
    alist.lookup (sessionIdCapture parse sid line st).1.claude_session_map sid
      = ((alist.lookup st.claude_session_map sid).orElse
          (fun _ => lineSessionId parse line))
    ∧ (sessionIdCapture parse sid line st).1.processes = st.processes := by
  unfold sessionIdCapture lineSessionId
  cases hp : parse line with
  | none =>
      cases hm : alist.lookup st.claude_session_map sid <;>
        simp [hp, hm, Option.orElse]
  | some val =>
      cases hv : (val.get "session_id").bind Json.asStr with
      | none =>
          cases hm : alist.lookup st.claude_session_map sid <;>
            simp [hp, hv, hm, Option.orElse]
      | some c =>
          cases hm : alist.lookup st.claude_session_map sid with
          | none => simp [hp, hv, hm, Option.orElse, alist.lookup_insert_self]
          | some v => simp [hp, hv, hm, Option.orElse]

theorem sessionIdCapture_count (parse : String → Option Json) (sid line : String)
    (st : ManagerState) :
    countName CLAUDE_SESSION_ID_RESOLVED (sessionIdCapture parse sid line st).2
      = (if (alist.lookup st.claude_session_map sid) = none
            ∧ (lineSessionId parse line).isSome = true
         then 1 else 0) := by
  unfold sessionIdCapture lineSessionId
  cases hp : parse line with
  | none =>
      cases hm : alist.lookup st.claude_session_map sid <;>
        simp [hp, hm, countName]
  | some val =>
      cases hv : (val.get "session_id").bind Json.asStr with
      | none =>
          cases hm : alist.lookup st.claude_session_map sid <;>
            simp [hp, hv, hm, countName]
      | some c =>
          cases hm : alist.lookup st.claude_session_map sid with
          | none => simp [hp, hv, hm, countName]
          | some v => simp [hp, hv, hm, countName]

theorem countName_resolved_system (sid : String) (ev : Json) :
    countName CLAUDE_SESSION_ID_RESOLVED (StreamParser.handle_system_event sid ev) = 0 := by
  unfold StreamParser.handle_system_event
  dsimp only
  repeat' split
  all_goals simp [countName, CLAUDE_COMPACTION, CLAUDE_SESSION_ID_RESOLVED]

theorem countName_resolved_stream (sid : String) (inner : Json) :
    countName CLAUDE_SESSION_ID_RESOLVED (StreamParser.handle_stream_event sid inner) = 0 := by
  unfold StreamParser.handle_stream_event
  dsimp only
  repeat' split
  all_goals
    simp [countName, CLAUDE_TOOL_START, CLAUDE_USAGE_UPDATE,
      CLAUDE_MESSAGE_COMPLETE, CLAUDE_SESSION_ID_RESOLVED]

theorem countName_resolved_result (sid : String) (ev : Json) :
    countName CLAUDE_SESSION_ID_RESOLVED (StreamParser.handle_result_event sid ev) = 0 := by
  unfold StreamParser.handle_result_event
  dsimp only
  repeat' split
  all_goals
    simp [countName, countName_append, CLAUDE_USAGE_UPDATE,
      CLAUDE_MESSAGE_COMPLETE, CLAUDE_SESSION_ID_RESOLVED]

theorem countName_resolved_parse_line (parse : String → Option Json)
    (sid line : String) :
    countName CLAUDE_SESSION_ID_RESOLVED (StreamParser.parse_line parse sid line) = 0 := by
  unfold StreamParser.parse_line
  dsimp only
  repeat' split
  all_goals
    try simp only [countName, countName_resolved_system, countName_resolved_stream,
      countName_resolved_result, StreamParser.handle_assistant_event]
  all_goals simp [countName, CLAUDE_STREAM_EVENT, CLAUDE_SESSION_ID_RESOLVED]

theorem stdoutLoop_map_lookup (parse : String → Option Json) (sid : String)
    (lines : List String) (st : ManagerState) :
    alist.lookup (stdoutLoop parse sid lines st).1.claude_session_map sid
      = ((alist.lookup st.claude_session_map sid).orElse
          (fun _ => firstCarrier parse lines)) := by
  induction lines generalizing st with
  | nil =>
      unfold stdoutLoop firstCarrier
      cases alist.lookup st.claude_session_map sid <;>
        simp [Option.orElse, List.findSome?_nil]
  | cons line rest ih =>
      unfold stdoutLoop
      dsimp only
      rw [ih]
      have hc := (sessionIdCapture_state parse sid line st).1
      rw [hc]
      unfold firstCarrier
      rw [List.findSome?_cons]
      cases hA : alist.lookup st.claude_session_map sid <;>
        cases hca : lineSessionId parse line <;>
        simp [Option.orElse, hca, firstCarrier]

theorem stdoutLoop_resolved_count (parse : String → Option Json) (sid : String)
    (lines : List String) (st : ManagerState) :
    countName CLAUDE_SESSION_ID_RESOLVED (stdoutLoop parse sid lines st).2
      = (if alist.lookup st.claude_session_map sid = none
            ∧ (firstCarrier parse lines).isSome = true
         then 1 else 0) := by
  induction lines generalizing st with
  | nil =>
      unfold stdoutLoop firstCarrier
      simp [countName, List.findSome?_nil]
  | cons line rest ih =>
      unfold stdoutLoop
      dsimp only
      rw [countName_append, countName_append, ih,
        countName_resolved_parse_line, sessionIdCapture_count]
      have hc := (sessionIdCapture_state parse sid line st).1
      rw [hc]
      unfold firstCarrier
      rw [List.findSome?_cons]
      cases hA : alist.lookup st.claude_session_map sid <;>
        cases hca : lineSessionId parse line <;>
        simp [Option.orElse, hca, firstCarrier]

/-- C3: over any stdout stream, the Conversation ID Map entry for the session
after the reader task ran equals the entry it had before, or — only if there
was none — the id carried by the first line with a top-level `session_id`
field (later carriers never overwrite it), and the conversation-id-resolved
event is emitted at most once however many lines carry the identifier. -/
theorem stdout_conversation_id_once (parse : String → Option Json) (sid : String)
    (lines : List String) (st : ManagerState) :
    alist.lookup (stdoutTask parse sid lines st).1.claude_session_map sid
      = ((alist.lookup st.claude_session_map sid).orElse
          (fun _ => firstCarrier parse lines))
    ∧ countName CLAUDE_SESSION_ID_RESOLVED (stdoutTask parse sid lines st).2 ≤ 1 := by
  constructor
  · unfold stdoutTask
    dsimp only
    rw [← stdoutLoop_map_lookup parse sid lines st]
    split
    · rfl
    · rfl
  · unfold stdoutTask
    dsimp only
    rw [countName_append, stdoutLoop_resolved_count]
    have h2 : countName CLAUDE_SESSION_ID_RESOLVED
        [Eff.emit CLAUDE_SESSION_STATUS (statusPayload sid "completed")] = 0 := by
      simp [countName, CLAUDE_SESSION_STATUS, CLAUDE_SESSION_ID_RESOLVED]
    rw [h2]
    split <;> simp

/-- C6: a line that fails to parse as JSON is logged and dropped: the
dispatcher emits no event for it and, being a total function, surfaces no
error to the caller; the events of the surrounding stream are exactly those
of the other lines, so subsequent valid lines are still processed. -/
theorem parse_line_invalid_dropped (parse : String → Option Json)
    (sid : String) (pre post : List String) (bad : String)
    (hbad : parse (strTrim bad) = none) :
    StreamParser.parse_line parse sid bad = []
    ∧ linesEvents parse sid (pre ++ bad :: post)
      = linesEvents parse sid pre ++ linesEvents parse sid post := by
  have h1 : StreamParser.parse_line parse sid bad = [] := by
    unfold StreamParser.parse_line
    dsimp only
    split
    · rfl
    · rw [hbad]
  refine ⟨h1, ?_⟩
  simp [linesEvents, h1]

/-- Witness for C6: the unparsable line `not json` emits nothing and leaves
the neighbouring lines' events untouched. -/
theorem parse_line_invalid_dropped_witness :
    StreamParser.parse_line (fun _ => none) "s" "not json" = []
    ∧ linesEvents (fun _ => none) "s" (["a"] ++ "not json" :: ["b"])
      = linesEvents (fun _ => none) "s" ["a"] ++ linesEvents (fun _ => none) "s" ["b"] := by
  have h := parse_line_invalid_dropped (fun _ => none) "s" ["a"] ["b"] "not json" rfl
  exact h

/-- The parsed value of the scenario line
`\x7b"type":"system","subtype":"init","session_id":"ext-1"\x7d`. -/
def initLineJson : Json :=
  Json.obj [("type", Json.str "system"), ("subtype", Json.str "init"),
            ("session_id", Json.str "ext-1")]

/-- The parsed value of the scenario line
`\x7b"type":"result","usage":\x7b"input_tokens":10,"output_tokens":5\x7d\x7d`. -/
def resultLineJson : Json :=
  Json.obj [("type", Json.str "result"),
            ("usage", Json.obj [("input_tokens", Json.num 10),
                                ("output_tokens", Json.num 5)])]

/-- C7: feeding a fresh session the init line carrying external id `ext-1`
and then a result line with usage `input_tokens=10, output_tokens=5`
produces, in order: the conversation-id-resolved event for `ext-1`, the two
raw passthrough events, a usage-update event with the two given counters and
the two absent cache counters defaulted to zero, the message-complete event,
and the end-of-stream completed status event. -/
theorem stdout_scenario_events (parse : String → Option Json) (sid : String)
    (st : ManagerState) (l1 l2 : String)
    (h1 : parse l1 = some initLineJson)
    (h1t : parse (strTrim l1) = some initLineJson)
    (h1e : (strTrim l1).data.isEmpty = false)
    (h2 : parse l2 = some resultLineJson)
    (h2t : parse (strTrim l2) = some resultLineJson)
    (h2e : (strTrim l2).data.isEmpty = false)
    (hmap : alist.lookup st.claude_session_map sid = none) :
    (stdoutTask parse sid [l1, l2] st).2
      = [Eff.emit CLAUDE_SESSION_ID_RESOLVED (resolvedPayload sid "ext-1"),
         Eff.emit CLAUDE_STREAM_EVENT (rawEventPayload sid initLineJson),
         Eff.emit CLAUDE_STREAM_EVENT (rawEventPayload sid resultLineJson),
         Eff.emit CLAUDE_USAGE_UPDATE (usagePayload sid 10 5 0 0),
         Eff.emit CLAUDE_MESSAGE_COMPLETE (sessionOnlyPayload sid),
         Eff.emit CLAUDE_SESSION_STATUS (statusPayload sid "completed")] := by
  simp [stdoutTask, stdoutLoop, sessionIdCapture, StreamParser.parse_line,
    StreamParser.handle_system_event, StreamParser.handle_result_event,
    initLineJson, resultLineJson, Json.get, Json.asStr, Json.asU64,
    alist.lookup, alist.insert, alist.erase,
    h1, h1t, h1e, h2, h2t, h2e, hmap, Option.orElse]

/-- Witness for C7: the scenario run on the literal NDJSON lines with a
parse oracle defined on exactly those two lines. -/
theorem stdout_scenario_events_witness :
    (stdoutTask
        (fun s =>
          if s = "\x7b\"type\":\"system\",\"subtype\":\"init\",\"session_id\":\"ext-1\"\x7d"
          then some initLineJson
          else if s = "\x7b\"type\":\"result\",\"usage\":\x7b\"input_tokens\":10,\"output_tokens\":5\x7d\x7d"
          then some resultLineJson
          else none)
        "s"
        ["\x7b\"type\":\"system\",\"subtype\":\"init\",\"session_id\":\"ext-1\"\x7d",
         "\x7b\"type\":\"result\",\"usage\":\x7b\"input_tokens\":10,\"output_tokens\":5\x7d\x7d"]
        { processes := [], claude_session_map := [] }).2
      = [Eff.emit CLAUDE_SESSION_ID_RESOLVED (resolvedPayload "s" "ext-1"),
         Eff.emit CLAUDE_STREAM_EVENT (rawEventPayload "s" initLineJson),
         Eff.emit CLAUDE_STREAM_EVENT (rawEventPayload "s" resultLineJson),
         Eff.emit CLAUDE_USAGE_UPDATE (usagePayload "s" 10 5 0 0),
         Eff.emit CLAUDE_MESSAGE_COMPLETE (sessionOnlyPayload "s"),
         Eff.emit CLAUDE_SESSION_STATUS (statusPayload "s" "completed")] := by
  have htrim1 : strTrim "\x7b\"type\":\"system\",\"subtype\":\"init\",\"session_id\":\"ext-1\"\x7d"
      = "\x7b\"type\":\"system\",\"subtype\":\"init\",\"session_id\":\"ext-1\"\x7d" := by decide
  have htrim2 : strTrim "\x7b\"type\":\"result\",\"usage\":\x7b\"input_tokens\":10,\"output_tokens\":5\x7d\x7d"
      = "\x7b\"type\":\"result\",\"usage\":\x7b\"input_tokens\":10,\"output_tokens\":5\x7d\x7d" := by decide
  exact stdout_scenario_events _ "s" _ _ _
    (by simp) (by rw [htrim1]; simp) (by rw [htrim1]; decide)
    (by simp) (by rw [htrim2]; simp) (by rw [htrim2]; decide)
    rfl

/-- Counterexample for C5: with no explicit path and no existing well-known
candidate, the resolution used by `spawn` (`resolve_cli_path`) already fails
with the binary-not-found error, even though a shell query would have
resolved the command — contradicting the claim that `spawn` falls back to a
shell query and fails only when all three steps fail.  The shell-query step
exists only in `detect_cli_path`, which `spawn` does not call. -/
theorem resolve_cli_path_counterexample :
    ProcessManager.resolve_cli_path (fun _ => false) none none
      = Except.error SendErr.cliNotFound
    ∧ resolveCliPathSpec (fun _ => false) none (some "/shell/claude") none
      = Except.ok "/shell/claude" := by
  constructor <;> rfl

/-- C5 (amended): `spawn`'s resolution has two steps only — an explicitly
supplied path wins, else the first existing candidate from the fixed ordered
list — and it fails (with the actionable install-hint text) iff no path was
supplied and no candidate exists; the shell query lives only in the separate
detection helper `detect_cli_path`, which consults the shell first and then
probes the same candidate list. -/
theorem resolve_cli_path_amended (fsExists : String → Bool) (home : Option String)
    (provided : Option String) (out : String) :
    ProcessManager.resolve_cli_path fsExists home provided
      = resolveCliPathSpec fsExists home none provided
    ∧ ((ProcessManager.resolve_cli_path fsExists home provided).isOk = false ↔
        provided = none ∧ (cliCandidates home).find? fsExists = none)
    ∧ SendErr.message SendErr.cliNotFound
      = "Claude CLI not found. Install via Homebrew (brew install claude-code) or npm (npm install -g @anthropic-ai/claude-code)"
    ∧ ((strTrim out).data.isEmpty = false →
        ProcessManager.detect_cli_path (some out) fsExists home = some (strTrim out))
    ∧ ProcessManager.detect_cli_path none fsExists home
      = (cliCandidates home).find? fsExists := by
  refine ⟨?_, ?_, rfl, ?_, rfl⟩
  · unfold ProcessManager.resolve_cli_path resolveCliPathSpec
    cases provided with
    | none => cases h : (cliCandidates home).find? fsExists <;> simp [h]
    | some q => rfl
  · unfold ProcessManager.resolve_cli_path
    cases provided with
    | none =>
        cases h : (cliCandidates home).find? fsExists <;>
          simp [h, Except.isOk, Except.toBool]
    | some q => simp [Except.isOk, Except.toBool]
  · intro hne
    unfold ProcessManager.detect_cli_path
    dsimp only
    rw [hne]
    rfl

/-- Witness for C5 (amended): concrete checks — resolution with nothing on
disk agrees with the shell-less reading of the spec, and the detection
helper returns the trimmed shell answer. -/
theorem resolve_cli_path_amended_witness :
    ProcessManager.resolve_cli_path (fun _ => false) none none
      = resolveCliPathSpec (fun _ => false) none none none
    ∧ ProcessManager.detect_cli_path (some " /usr/bin/claude\n") (fun _ => false) none
      = some (strTrim " /usr/bin/claude\n") := by
  have h := resolve_cli_path_amended (fun _ => false) none none " /usr/bin/claude\n"
  exact ⟨h.1, h.2.2.2.1 (by decide)⟩
